import Mathlib

/-
Verification of the MailchimpMCP server (mailchimp_mcp_server.py) against its
natural-language specification.

The Python program is shallowly embedded as follows:
- JSON-decoded Python values (the results of response.json() and the values
  handlers build and return) are modelled by the inductive type `Json`, with
  Python None and JSON null conflated into `Json.null` (they are the same
  object after json.loads, and they serialize identically).
- Python truthiness, the `or` operator, `dict.get`, and `str()` are modelled
  by `Json.truthy`, `pyOr`, `Json.get?` / `Json.getD`, and `Json.pyToStr`.
  `Json.getD` returns its default on a non-object value where Python would
  raise AttributeError; the theorems below therefore restrict themselves to
  object ("structured") bodies, the only zone the embedding and Python agree
  on and the only zone the claims speak about.
- The single outbound `requests.request` call is modelled by a
  `GatewayOutcome`: either the transport raised (requests.RequestException)
  or an HTTP response arrived. An `HttpResponse` carries the status code, the
  raw body text, and `body : Option Json`, the result of `response.json()`
  (`none` when that call would raise ValueError).
- The two `raise Exception(...)` sites of `mailchimp_request` are the two
  constructors of `MailchimpException`; `MailchimpException.message` is the
  exact f-string each site formats.
-/

set_option autoImplicit false

namespace MailchimpMCP

/-- JSON-decoded Python values. `null` stands both for JSON null and for the
Python value None. -/
inductive Json where
  | null
  | bool (b : Bool)
  | num (n : Int)
  | str (s : String)
  | arr (xs : List Json)
  | obj (kvs : List (String × Json))

/-- First-match lookup in an association list of string keys. -/
def lookupStr (k : String) : List (String × Json) → Option Json
  | [] => none
  | (k2, v) :: rest => if k2 = k then some v else lookupStr k rest

/-- Python `d.get(k)` on a dict, as an Option: `none` when the key is absent.
On a non-object value Python would raise AttributeError; here it is `none`. -/
def Json.get? : Json → String → Option Json
  | .obj kvs, k => lookupStr k kvs
  | _, _ => none

/-- Python `d.get(k, default)`: the value at `k`, or `default` when absent.
A plain `d.get(k)` is `getD d k Json.null`, since Python returns None then. -/
def Json.getD (j : Json) (k : String) (d : Json) : Json :=
  (j.get? k).getD d

/-- Python truthiness of a JSON-decoded value: None, False, 0, "", [] and
\x7b\x7d are falsy, everything else truthy. -/
def Json.truthy : Json → Bool
  | .null => false
  | .bool b => b
  | .num n => n != 0
  | .str s => !s.isEmpty
  | .arr xs => !xs.isEmpty
  | .obj kvs => !kvs.isEmpty

/-- Python `a or b` on JSON-decoded values: `a` when truthy, else `b`. -/
def pyOr (a b : Json) : Json :=
  if a.truthy then a else b

/-- A single quote character, used by the Python repr rendering below. -/
def sq : String := String.singleton (Char.ofNat 39)

mutual

/-- Python `repr()` of a JSON-decoded value, as produced by `str()` on a dict
or list (e.g. `str(err_json)` on line 38 of the source). String escaping is
simplified: strings are wrapped in single quotes without inner escaping,
which agrees with Python on every string free of quotes and backslashes. -/
def Json.reprStr : Json → String
  | .null => "None"
  | .bool true => "True"
  | .bool false => "False"
  | .num n => toString n
  | .str s => sq ++ s ++ sq
  | .arr xs => "[" ++ reprStrArr xs ++ "]"
  | .obj kvs => "\x7b" ++ reprStrObj kvs ++ "\x7d"

/-- Comma-separated repr of the elements of a list. -/
def reprStrArr : List Json → String
  | [] => ""
  | [x] => Json.reprStr x
  | x :: xs => Json.reprStr x ++ ", " ++ reprStrArr xs

/-- Comma-separated repr of the entries of a dict. -/
def reprStrObj : List (String × Json) → String
  | [] => ""
  | [(k, v)] => sq ++ k ++ sq ++ ": " ++ Json.reprStr v
  | (k, v) :: kvs => sq ++ k ++ sq ++ ": " ++ Json.reprStr v ++ ", " ++ reprStrObj kvs

end

/-- Python `str()` of a JSON-decoded value, as applied by an f-string such as
the one on line 41 of the source: a string renders as itself, anything else
as its repr. -/
def Json.pyToStr : Json → String
  | .str s => s
  | j => j.reprStr

/-- True exactly on object (mapping) values, the "structured" bodies of the
spec; Python `.get` raises AttributeError on everything else. -/
def Json.isObj : Json → Bool
  | .obj _ => true
  | _ => false

/-- An HTTP response from the upstream service: `status` is
`response.status_code`, `text` is `response.text`, and `body` is the result
of `response.json()` (`none` when that raises ValueError, i.e. when `text`
is not valid JSON). -/
structure HttpResponse where
  status : Nat
  body : Option Json
  text : String

/-- The outcome of the single outbound `requests.request` call inside
`mailchimp_request`: either the transport layer raised a
requests.RequestException with message `msg`, or a response arrived. -/
inductive GatewayOutcome where
  | transportError (msg : String)
  | response (r : HttpResponse)

/-- The two `raise Exception(...)` sites of `mailchimp_request`: line 30
(network or connection error) and line 41 (HTTP status >= 400, carrying the
status code and the extracted error detail string). -/
inductive MailchimpException where
  | connectError (msg : String)
  | apiError (status : Nat) (detail : String)

deriving instance DecidableEq for MailchimpException

/-- The exact message string each raise site formats. -/
def MailchimpException.message : MailchimpException → String
  | .connectError m => "Failed to connect to Mailchimp API: " ++ m
  | .apiError s d => "Mailchimp API error " ++ toString s ++ ": " ++ d

/-- Lines 33-40 of the source: the error detail extracted from an HTTP error
response. When `response.json()` succeeds the chain is
`err_json.get("detail") or err_json.get("title") or str(err_json)` (then
rendered by the f-string via `str()`); when it raises ValueError the fallback
is `response.text or "Unknown error"`. -/
def mailchimp_error_detail (body : Option Json) (text : String) : String :=
  match body with
  | some j =>
      Json.pyToStr (pyOr (j.getD "detail" .null)
        (pyOr (j.getD "title" .null) (.str j.reprStr)))
  | none => if text ≠ "" then text else "Unknown error"

/-- Lines 21-42 of the source: `mailchimp_request`. A transport failure is
re-raised as the connection-error exception; a response with status >= 400
raises the API-error exception with the extracted detail; any other response
is returned unchanged. -/
def mailchimp_request (g : GatewayOutcome) : Except MailchimpException HttpResponse :=
  match g with
  | .transportError m => .error (.connectError m)
  | .response r =>
      if r.status ≥ 400 then
        .error (.apiError r.status (mailchimp_error_detail r.body r.text))
      else
        .ok r

example :
    mailchimp_request (.response ⟨404, some (.obj [("detail", .str "Not Found")]), ""⟩)
      = .error (.apiError 404 "Not Found") := rfl

example :
    (MailchimpException.apiError 404 "Not Found").message
      = "Mailchimp API error 404: Not Found" := by decide

example :
    mailchimp_request (.response ⟨200, some (.obj []), "ok"⟩)
      = .ok ⟨200, some (.obj []), "ok"⟩ := rfl

/-- An exception escaping a tool handler: either one of the two
`mailchimp_request` exceptions, or the ValueError that `resp.json()` raises
inside a handler when a success response body is not valid JSON (that call
is not wrapped in a try block). -/
inductive PyError where
  | mailchimp (e : MailchimpException)
  | valueError

/-- Python iteration over a value expected to be a list: the elements when it
is one. The source iterates `data.get("campaigns", [])` and
`data.get("automations", [])`; on a non-list Python would iterate keys or
characters or raise TypeError, a zone the theorems below avoid by hypothesis. -/
def pyIter : Json → List Json
  | .arr xs => xs
  | _ => []

/-- Lines 54-59 of the source: the record built for one campaign. The name is
`camp.get("settings", \x7b\x7d).get("title") or
camp.get("settings", \x7b\x7d).get("subject_line")`. -/
def campaignRecord (camp : Json) : Json :=
  .obj [("id", camp.getD "id" .null),
        ("name", pyOr ((camp.getD "settings" (.obj [])).getD "title" .null)
                      ((camp.getD "settings" (.obj [])).getD "subject_line" .null)),
        ("status", camp.getD "status" .null),
        ("emails_sent", camp.getD "emails_sent" .null)]

/-- Lines 46-60 of the source: the `list_campaigns` tool. Calls the Mailchimp
API, decodes the body, and maps each entry of `data.get("campaigns", [])` to
its record, preserving order. -/
def list_campaigns (g : GatewayOutcome) : Except PyError Json :=
  match mailchimp_request g with
  | .error e => .error (.mailchimp e)
  | .ok r =>
      match r.body with
      | some data => .ok (.arr ((pyIter (data.getD "campaigns" (.arr []))).map campaignRecord))
      | none => .error .valueError

/-- Lines 66-74 of the source: the request payload `create_campaign` builds. -/
def create_campaign_payload (list_id subject from_name reply_to : String) : Json :=
  .obj [("type", .str "regular"),
        ("recipients", .obj [("list_id", .str list_id)]),
        ("settings", .obj [("subject_line", .str subject),
                           ("from_name", .str from_name),
                           ("reply_to", .str reply_to)])]

/-- Lines 62-78 of the source: the `create_campaign` tool. Posts the payload
and returns `\x7b"id": campaign_info.get("id"),
"status": campaign_info.get("status", "created")\x7d`. -/
def create_campaign (list_id subject from_name reply_to : String)
    (g : GatewayOutcome) : Except PyError Json :=
  match mailchimp_request g with
  | .error e => .error (.mailchimp e)
  | .ok r =>
      match r.body with
      | some info => .ok (.obj [("id", info.getD "id" .null),
                                ("status", info.getD "status" (.str "created"))])
      | none => .error .valueError

/-- Lines 80-86 of the source: the `send_campaign` tool. Posts to the send
action endpoint; on success returns the confirmation string. -/
def send_campaign (campaign_id : String) (g : GatewayOutcome) : Except PyError Json :=
  match mailchimp_request g with
  | .error e => .error (.mailchimp e)
  | .ok _ => .ok (.str ("Campaign " ++ campaign_id ++ " has been sent."))

/-- Lines 95-100 of the source: the record built for one automation. The name
falls back to `auto.get("create_time")` instead of a subject line. -/
def automationRecord (auto : Json) : Json :=
  .obj [("id", auto.getD "id" .null),
        ("name", pyOr ((auto.getD "settings" (.obj [])).getD "title" .null)
                      (auto.getD "create_time" .null)),
        ("status", auto.getD "status" .null),
        ("emails_sent", auto.getD "emails_sent" .null)]

/-- Lines 88-101 of the source: the `list_automations` tool. -/
def list_automations (g : GatewayOutcome) : Except PyError Json :=
  match mailchimp_request g with
  | .error e => .error (.mailchimp e)
  | .ok r =>
      match r.body with
      | some data => .ok (.arr ((pyIter (data.getD "automations" (.arr []))).map automationRecord))
      | none => .error .valueError

/-- Lines 103-107 of the source: the `start_automation` tool. -/
def start_automation (workflow_id : String) (g : GatewayOutcome) : Except PyError Json :=
  match mailchimp_request g with
  | .error e => .error (.mailchimp e)
  | .ok _ => .ok (.str ("Automation workflow " ++ workflow_id ++ " started."))

/-- Modelled from the spec: the ErrorObject kinds of the taxonomy in the error
handling design. Only the kinds reachable from a tools/call are modelled. -/
inductive ErrorKind where
  | toolInvocationError
  | upstreamUnreachable
  | unknownTool
  | invalidParams

deriving instance DecidableEq for ErrorKind

/-- Modelled from the spec: the ErrorObject of the data model, with the
optional structured context split into its two fields, the upstream status
code and the extracted body message. -/
structure ErrorObject where
  kind : ErrorKind
  message : String
  detailStatus : Option Nat
  detailBody : Option String

deriving instance DecidableEq for ErrorObject

/-- Modelled from the spec: the error mapping of the dispatcher, which is not
part of src (it lives in the FastMCP library). A transport-level failure
reaching the external service becomes UpstreamUnreachable; an HTTP-level
failure (status >= 400) becomes ToolInvocationError with detail.status the
status code and detail.body the extracted message. The human-readable message
is the string of the exception the handler raised, since that string is all
the handler exposes. -/
def toErrorObject : MailchimpException → ErrorObject
  | .connectError m =>
      { kind := .upstreamUnreachable,
        message := (MailchimpException.connectError m).message,
        detailStatus := none, detailBody := none }
  | .apiError s d =>
      { kind := .toolInvocationError,
        message := (MailchimpException.apiError s d).message,
        detailStatus := some s, detailBody := some d }

/-- Modelled from the spec: a ToolDescriptor, a name unique within the
registry plus its description (the handler docstring). The input schema is
left out: no claim mentions its content. -/
structure ToolDescriptor where
  name : String
  description : String

deriving instance DecidableEq for ToolDescriptor

/-- Modelled from the spec: the registry built once at server start, one
entry per decorated handler, in definition (= registration) order, with the
source docstrings as descriptions. -/
def registeredTools : List ToolDescriptor :=
  [⟨"list_campaigns",
    "Retrieve all email campaigns in the Mailchimp account (returns basic info for each campaign)."⟩,
   ⟨"create_campaign",
    "Create a new email campaign in Mailchimp (returns the new campaign" ++ sq ++ "s ID and details)."⟩,
   ⟨"send_campaign",
    "Send a campaign that has been created (campaign must be ready to send)."⟩,
   ⟨"list_automations",
    "List all classic automation workflows in the Mailchimp account."⟩,
   ⟨"start_automation",
    "Start all emails in a specified automation workflow (activating the automation)."⟩]

/-- The names of the registered tools, in registration order. -/
def registeredNames : List String :=
  registeredTools.map (·.name)

/-- A string parameter extracted from the params mapping of a tools/call. -/
def getStrParam (params : Json) (k : String) : Option String :=
  match params.get? k with
  | some (.str s) => some s
  | _ => none

/-- Modelled from the spec: whether the params mapping of a tools/call binds
to the named handler signature (validation before invoking the handler).
The two list tools take no parameters; the others take the string parameters
of their source signatures. -/
def bindOk (name : String) (params : Json) : Bool :=
  if name = "list_campaigns" then true
  else if name = "create_campaign" then
    ((getStrParam params "list_id").isSome && (getStrParam params "subject").isSome
      && (getStrParam params "from_name").isSome && (getStrParam params "reply_to").isSome)
  else if name = "send_campaign" then (getStrParam params "campaign_id").isSome
  else if name = "list_automations" then true
  else if name = "start_automation" then (getStrParam params "workflow_id").isSome
  else false

/-- The handler invocation for a registered tool once params are bound; the
defaults for missing string params are never reached when `bindOk` holds. -/
def runHandler (name : String) (params : Json) (g : GatewayOutcome) : Except PyError Json :=
  if name = "create_campaign" then
    create_campaign ((getStrParam params "list_id").getD "")
      ((getStrParam params "subject").getD "") ((getStrParam params "from_name").getD "")
      ((getStrParam params "reply_to").getD "") g
  else if name = "send_campaign" then
    send_campaign ((getStrParam params "campaign_id").getD "") g
  else if name = "list_automations" then list_automations g
  else if name = "start_automation" then start_automation ((getStrParam params "workflow_id").getD "") g
  else list_campaigns g

/-- Modelled from the spec: the outcome the dispatcher packages into the
Response of a tools/call, either the handler value as result or an
ErrorObject. -/
inductive CallOutcome where
  | result (v : Json)
  | error (e : ErrorObject)

/-- Modelled from the spec: dispatch of a tools/call. Unknown names yield
UnknownTool; params that do not bind yield InvalidParams before the handler
runs; a handler value passes through unmodified as the result; an exception
escaping the handler is mapped to an ErrorObject (via the error mapping for
the two Mailchimp exception sites). -/
def callTool (name : String) (params : Json) (g : GatewayOutcome) : CallOutcome :=
  if registeredNames.contains name then
    if bindOk name params then
      match runHandler name params g with
      | .ok v => .result v
      | .error (.mailchimp e) => .error (toErrorObject e)
      | .error .valueError =>
          .error { kind := .toolInvocationError, message := "ValueError",
                   detailStatus := none, detailBody := none }
    else
      .error { kind := .invalidParams, message := "Invalid params for tool " ++ name,
               detailStatus := none, detailBody := none }
  else
    .error { kind := .unknownTool, message := "Unknown tool: " ++ name,
             detailStatus := none, detailBody := none }

/-- Modelled from the spec: the session states of the handshake state
machine. -/
inductive SessionState where
  | uninit
  | ready
  | closed

deriving instance DecidableEq for SessionState

/-- Modelled from the spec: handling of a tools/list request. On a Ready
session it returns the full descriptor sequence of the immutable registry and
leaves the state unchanged; in any other state no descriptor payload is
produced (before the handshake this is a protocol violation, after close no
request is accepted) and the state is also unchanged. -/
def handleToolsList : SessionState → Option (List ToolDescriptor) × SessionState
  | .ready => (some registeredTools, .ready)
  | s => (none, s)

/-- The keys of an object value, in order; used to state which fields a
returned record carries. -/
def Json.keys : Json → List String
  | .obj kvs => kvs.map Prod.fst
  | _ => []

/-- The body of `mailchimp_request` performs exactly one `requests.request`
call. Modelling the gateway as the stream of outcomes successive outbound
calls would produce, the function consumes only the first: this is the
no-retry property of the protocol core. -/
def mailchimp_request_attempts (outcomes : Nat → GatewayOutcome) :
    Except MailchimpException HttpResponse :=
  mailchimp_request (outcomes 0)

/-- Python `s.split(sep)` for a one-character separator, on strings modelled
as character lists: splits at every occurrence, keeping empty pieces, and
yields one piece even for the empty string. -/
def splitOnChar (c : Char) : List Char → List (List Char)
  | [] => [[]]
  | x :: xs =>
      if x = c then [] :: splitOnChar c xs
      else
        match splitOnChar c xs with
        | [] => [[x]]
        | y :: ys => (x :: y) :: ys

/-- Python `pieces[-1]`: the last element of a list, with a default for the
empty list (unreachable for split results, which are never empty). -/
def pyLast (d : List Char) : List (List Char) → List Char
  | [] => d
  | [x] => x
  | _ :: x :: xs => pyLast d (x :: xs)

/-- Lines 10-15 of the source, with strings modelled as character lists and
the process environment as the two optional variables: `MAILCHIMP_DC`
defaults to the placeholder "<YOUR_DC>"; when it equals the placeholder and
the API key is non-empty and contains a dash, it is replaced by
`MAILCHIMP_API_KEY.split("-")[-1]`, the piece after the last dash. -/
def derive_dc (envKey envDC : Option (List Char)) : List Char :=
  let key := envKey.getD ("<YOUR_API_KEY>".toList)
  let dc := envDC.getD ("<YOUR_DC>".toList)
  if dc = "<YOUR_DC>".toList ∧ key ≠ [] ∧ ('-' : Char) ∈ key then
    pyLast [] (splitOnChar '-' key)
  else dc

/-- Claim C2's extraction chain, stated from the spec's words: the body's
"detail" field if present, otherwise its "title" field, otherwise the raw
body text, otherwise a generic unknown-error string. Compared below against
`mailchimp_error_detail`, the chain the source implements. -/
def claimBestEffortMessage (body : Option Json) (text : String) : String :=
  match body with
  | some j =>
      match j.get? "detail" with
      | some d => d.pyToStr
      | none =>
          match j.get? "title" with
          | some t => t.pyToStr
          | none => if text ≠ "" then text else "unknown error"
  | none => if text ≠ "" then text else "unknown error"

/-- The amended extraction chain for claim C2, stated from the amended
words: the "detail" field when present and truthy (for a string, non-empty),
otherwise the "title" field when present and truthy, otherwise the string
rendering of the parsed structured body; for a body that is not valid JSON,
the raw body text when non-empty, otherwise the generic "Unknown error". -/
def amendedBestEffortMessage (body : Option Json) (text : String) : String :=
  match body with
  | some j =>
      let d := j.getD "detail" .null
      if d.truthy then d.pyToStr
      else
        let t := j.getD "title" .null
        if t.truthy then t.pyToStr else j.reprStr
  | none => if text ≠ "" then text else "Unknown error"

/-- Every handler forwards an exception raised by `mailchimp_request`
unchanged: each of the five tool bodies starts with the gateway call and
has no surrounding try block. -/
theorem runHandler_error (name : String) (params : Json) (g : GatewayOutcome)
    (e : MailchimpException) (h : mailchimp_request g = .error e) :
    runHandler name params g = .error (.mailchimp e) := by
  simp only [runHandler, create_campaign, send_campaign, list_automations,
    start_automation, list_campaigns, h, ite_self]

/-- When the upstream body is a JSON object whose "detail" field is a
non-empty string, the extracted error detail is exactly that string: it is
the first and truthy link of the `or` chain. -/
theorem mailchimp_error_detail_of_detail (j : Json) (s : String) (text : String)
    (hdetail : j.get? "detail" = some (.str s)) (hs : s ≠ "") :
    mailchimp_error_detail (some j) text = s := by
  have hne : s.isEmpty = false := by
    cases h : s.isEmpty
    · rfl
    · exact absurd ((String.isEmpty_iff s).mp h) hs
  simp [mailchimp_error_detail, Json.getD, hdetail, pyOr, Json.truthy, hne, Json.pyToStr]

/-- Claim C1, counterexample: for the send_campaign call against a 404
response whose structured body has detail "Resource Not Found", the
ErrorObject produced carries message "Mailchimp API error 404: Resource Not
Found", which is not equal to the detail field's value: the source prefixes
the detail with "Mailchimp API error \x7bstatus\x7d: " on line 41 before
raising, and that exception string is the only message the handler exposes. -/
theorem c1_counterexample :
    callTool "send_campaign" (.obj [("campaign_id", .str "abc123")])
        (.response ⟨404, some (.obj [("detail", .str "Resource Not Found")]), "x"⟩)
      = .error { kind := .toolInvocationError,
                 message := "Mailchimp API error 404: Resource Not Found",
                 detailStatus := some 404, detailBody := some "Resource Not Found" }
    ∧ ("Mailchimp API error 404: Resource Not Found" : String) ≠ "Resource Not Found" := by
  exact ⟨rfl, by decide⟩

/-- Claim C1 as amended: for every tools/call to a registered tool whose
params bind, when the upstream returns status at least 400 with a structured
body whose "detail" field is a non-empty string s, the ErrorObject produced
has kind ToolInvocationError, detail.status the upstream status,
detail.body equal to s, and message equal to s prefixed with
"Mailchimp API error \x7bstatus\x7d: ". -/
theorem c1_amended (name : String) (params : Json) (r : HttpResponse)
    (j : Json) (s : String)
    (hname : name ∈ registeredNames) (hbind : bindOk name params = true)
    (hst : r.status ≥ 400) (hbody : r.body = some j)
    (hdetail : j.get? "detail" = some (.str s)) (hs : s ≠ "") :
    callTool name params (.response r)
      = .error { kind := .toolInvocationError,
                 message := "Mailchimp API error " ++ toString r.status ++ ": " ++ s,
                 detailStatus := some r.status, detailBody := some s } := by
  have hreq : mailchimp_request (.response r) = .error (.apiError r.status s) := by
    simp only [mailchimp_request, if_pos hst, hbody,
      mailchimp_error_detail_of_detail j s r.text hdetail hs]
  have hcontains : registeredNames.contains name = true := by
    exact List.elem_eq_true_of_mem hname
  simp only [callTool, hcontains, if_pos, hbind, if_true,
    runHandler_error name params _ _ hreq, toErrorObject, MailchimpException.message]

/-- Witness for C1 as amended, at the send_campaign call of the end-to-end
scenario with a concrete 404 detail body. -/
theorem c1_amended_witness :
    callTool "send_campaign" (.obj [("campaign_id", .str "abc123")])
        (.response ⟨404, some (.obj [("detail", .str "nope")]), "x"⟩)
      = .error { kind := .toolInvocationError,
                 message := "Mailchimp API error " ++ toString 404 ++ ": " ++ "nope",
                 detailStatus := some 404, detailBody := some "nope" } := by
  exact c1_amended "send_campaign" (.obj [("campaign_id", .str "abc123")])
    ⟨404, some (.obj [("detail", .str "nope")]), "x"⟩
    (.obj [("detail", .str "nope")]) "nope"
    (by decide) (by decide) (by decide) rfl rfl (by decide)

/-- Claim C2, counterexample: the claim reads the chain as keyed on
presence, but the source keys it on Python truthiness. For a 403 response
whose structured body has detail present but empty and title "Forbidden",
the claim's chain yields the empty detail value while the code's ErrorObject
carries detail.body "Forbidden". -/
theorem c2_counterexample :
    mailchimp_request (.response ⟨403,
        some (.obj [("detail", .str ""), ("title", .str "Forbidden")]), "raw"⟩)
      = .error (.apiError 403 "Forbidden")
    ∧ (toErrorObject (.apiError 403 "Forbidden")).detailBody = some "Forbidden"
    ∧ claimBestEffortMessage
        (some (.obj [("detail", .str ""), ("title", .str "Forbidden")])) "raw" = ""
    ∧ ("Forbidden" : String) ≠ "" := by
  exact ⟨rfl, rfl, rfl, by decide⟩

/-- The extraction chain the source implements agrees everywhere with the
amended best-effort chain. -/
theorem mailchimp_error_detail_eq_amended (body : Option Json) (text : String) :
    mailchimp_error_detail body text = amendedBestEffortMessage body text := by
  cases body with
  | none => rfl
  | some j =>
      simp only [mailchimp_error_detail, amendedBestEffortMessage, pyOr]
      by_cases hd : (j.getD "detail" .null).truthy
      · simp [hd]
      · by_cases ht : (j.getD "title" .null).truthy
        · simp [hd, ht]
        · simp [hd, ht, Json.pyToStr]

/-- Claim C2 as amended: every upstream response with status at least 400
(and, when structured, an object body) yields a ToolInvocationError whose
detail.status is the upstream status and whose detail.body follows the
amended best-effort chain: the "detail" field when present and truthy,
otherwise the "title" field when present and truthy, otherwise the string
rendering of the parsed body; for an unparsable body the raw text when
non-empty, otherwise "Unknown error". -/
theorem c2_amended (r : HttpResponse)
    (hst : r.status ≥ 400)
    (hobj : ∀ j, r.body = some j → j.isObj = true) :
    ∃ e, mailchimp_request (.response r) = .error e
      ∧ (toErrorObject e).kind = .toolInvocationError
      ∧ (toErrorObject e).detailStatus = some r.status
      ∧ (toErrorObject e).detailBody = some (amendedBestEffortMessage r.body r.text) := by
  refine ⟨.apiError r.status (mailchimp_error_detail r.body r.text), ?_, rfl, rfl, ?_⟩
  · simp only [mailchimp_request, if_pos hst]
  · simp only [toErrorObject, mailchimp_error_detail_eq_amended]

/-- Witness for C2 as amended, at a concrete 500 response whose object body
has neither a truthy detail nor a title field. -/
theorem c2_amended_witness :
    ∃ e, mailchimp_request (.response ⟨500, some (.obj [("status", .num 500)]), "raw"⟩)
        = .error e
      ∧ (toErrorObject e).kind = .toolInvocationError
      ∧ (toErrorObject e).detailStatus = some 500
      ∧ (toErrorObject e).detailBody
          = some (amendedBestEffortMessage (some (.obj [("status", .num 500)])) "raw") := by
  exact c2_amended ⟨500, some (.obj [("status", .num 500)]), "raw"⟩ (by decide)
    (by intro j hj; cases hj; rfl)

/-- Claim C3: a tools/call with name send_campaign and params
\x7bcampaign_id: "abc123"\x7d against an upstream that answers HTTP 404
yields an ErrorObject of kind ToolInvocationError whose detail.status equals
404. Shown on the concrete 404 response whose body carries the Mailchimp
not-found detail message. -/
theorem c3_send_campaign_404 :
    callTool "send_campaign" (.obj [("campaign_id", .str "abc123")])
      (.response ⟨404, some (.obj [("detail", .str "The requested resource could not be found.")]),
        "irrelevant"⟩)
      = .error { kind := .toolInvocationError,
                 message := "Mailchimp API error 404: The requested resource could not be found.",
                 detailStatus := some 404,
                 detailBody := some "The requested resource could not be found." } := by
  rfl

/-- Claim C6: on a Ready session, tools/list returns every registered
ToolDescriptor exactly once, in registration order: the names are
list_campaigns, create_campaign, send_campaign, list_automations,
start_automation in that order, with no duplicates, and the payload is
exactly the registry. -/
theorem c6_tools_list_registration_order :
    handleToolsList .ready = (some registeredTools, .ready)
      ∧ registeredNames = ["list_campaigns", "create_campaign", "send_campaign",
          "list_automations", "start_automation"]
      ∧ registeredNames.Nodup := by
  refine ⟨rfl, rfl, ?_⟩
  decide

/-- Claim C7: issuing tools/list twice in succession on the same Ready
session returns two identical descriptor sequences, the registry being
immutable and the state left Ready by the first call. -/
theorem c7_tools_list_idempotent :
    (handleToolsList .ready).2 = .ready
      ∧ (handleToolsList (handleToolsList .ready).2).1 = (handleToolsList .ready).1
      ∧ (handleToolsList .ready).1 = some registeredTools := by
  exact ⟨rfl, rfl, rfl⟩

/-- Claim C9: mailchimp_request raises if and only if the outbound request
itself failed or the response status is at least 400; every response with
status below 400 is returned unchanged, so the error branch is unreachable
under that precondition. -/
theorem c9_request_raise_iff :
    (∀ g : GatewayOutcome,
      (∃ e, mailchimp_request g = .error e)
        ↔ ((∃ m, g = .transportError m) ∨ (∃ r, g = .response r ∧ r.status ≥ 400)))
    ∧ (∀ r : HttpResponse, r.status < 400 → mailchimp_request (.response r) = .ok r) := by
  constructor
  · intro g
    constructor
    · intro ⟨e, he⟩
      cases g with
      | transportError m => exact Or.inl ⟨m, rfl⟩
      | response r =>
          refine Or.inr ⟨r, rfl, ?_⟩
          by_contra hlt
          simp only [mailchimp_request, if_neg hlt] at he
          exact Except.noConfusion he
    · intro h
      rcases h with ⟨m, rfl⟩ | ⟨r, rfl, hge⟩
      · exact ⟨.connectError m, rfl⟩
      · exact ⟨.apiError r.status (mailchimp_error_detail r.body r.text),
          by simp only [mailchimp_request, if_pos hge]⟩
  · intro r hlt
    simp only [mailchimp_request, if_neg (Nat.not_le_of_lt hlt)]

/-- Witness for C9 at concrete inputs: a 500 response raises, a transport
error raises, and a 200 response is returned unchanged. -/
theorem c9_witness :
    (∃ e, mailchimp_request (.response ⟨500, none, "boom"⟩) = .error e)
      ∧ (200 : Nat) < 400
      ∧ mailchimp_request (.response ⟨200, some (.obj []), "ok"⟩) = .ok ⟨200, some (.obj []), "ok"⟩ := by
  refine ⟨?_, by decide, c9_request_raise_iff.2 ⟨200, some (.obj []), "ok"⟩ (by decide)⟩
  exact (c9_request_raise_iff.1 (.response ⟨500, none, "boom"⟩)).2
    (Or.inr ⟨⟨500, none, "boom"⟩, rfl, by decide⟩)

/-- Claim C4: when the outbound HTTP request itself fails, every registered
tool call yields an UpstreamUnreachable failure carrying the
connection-error message, and the single outbound call is not retried: the
request outcome depends only on the first element of the stream of outcomes
successive attempts would produce. -/
theorem c4_transport_failure :
    (∀ (name : String) (params : Json) (m : String),
      name ∈ registeredNames → bindOk name params = true →
      callTool name params (.transportError m)
        = .error { kind := .upstreamUnreachable,
                   message := "Failed to connect to Mailchimp API: " ++ m,
                   detailStatus := none, detailBody := none })
    ∧ (∀ g g2 : Nat → GatewayOutcome, g 0 = g2 0 →
        mailchimp_request_attempts g = mailchimp_request_attempts g2) := by
  constructor
  · intro name params m hname hbind
    have hreq : mailchimp_request (.transportError m) = .error (.connectError m) := rfl
    have hcontains : registeredNames.contains name = true :=
      List.elem_eq_true_of_mem hname
    simp only [callTool, hcontains, if_true, hbind,
      runHandler_error name params _ _ hreq, toErrorObject, MailchimpException.message]
  · intro g g2 h
    simp only [mailchimp_request_attempts, h]

/-- Witness for C4 at a concrete transport failure of the list_campaigns
call, and at two outcome streams agreeing on their first element. -/
theorem c4_witness :
    callTool "list_campaigns" (.obj []) (.transportError "connection refused")
      = .error { kind := .upstreamUnreachable,
                 message := "Failed to connect to Mailchimp API: " ++ "connection refused",
                 detailStatus := none, detailBody := none }
    ∧ mailchimp_request_attempts (fun _ => .transportError "x")
        = mailchimp_request_attempts
            (fun n => if n = 0 then .transportError "x" else .response ⟨200, none, ""⟩) := by
  exact ⟨c4_transport_failure.1 "list_campaigns" (.obj []) "connection refused"
      (by decide) rfl,
    c4_transport_failure.2 _ _ rfl⟩

/-- Dispatch of a tools/call named list_campaigns routes to the
list_campaigns handler and packages its outcome. -/
theorem callTool_list_campaigns (params : Json) (g : GatewayOutcome) :
    callTool "list_campaigns" params g =
      match list_campaigns g with
      | .ok v => .result v
      | .error (.mailchimp e) => .error (toErrorObject e)
      | .error .valueError =>
          .error { kind := .toolInvocationError, message := "ValueError",
                   detailStatus := none, detailBody := none } := rfl

/-- Claim C5: for an upstream success whose body carries a list of N
campaign objects, the list_campaigns tools/call returns a result sequence of
exactly length N, in upstream order, each record carrying exactly the fields
id, name, status and emails_sent, and the Response result is exactly the
handler's return value. -/
theorem c5_list_campaigns_roundtrip (params data : Json) (r : HttpResponse)
    (camps : List Json)
    (hst : r.status < 400) (hbody : r.body = some data)
    (hcamps : data.get? "campaigns" = some (.arr camps)) :
    list_campaigns (.response r) = .ok (.arr (camps.map campaignRecord))
      ∧ callTool "list_campaigns" params (.response r)
          = .result (.arr (camps.map campaignRecord))
      ∧ (camps.map campaignRecord).length = camps.length
      ∧ ∀ c ∈ camps, (campaignRecord c).keys = ["id", "name", "status", "emails_sent"] := by
  have hok : mailchimp_request (.response r) = .ok r := by
    simp only [mailchimp_request, if_neg (Nat.not_le_of_lt hst)]
  have hl : list_campaigns (.response r) = .ok (.arr (camps.map campaignRecord)) := by
    simp only [list_campaigns, hok, hbody, Json.getD, hcamps, Option.getD_some, pyIter]
  refine ⟨hl, ?_, List.length_map _ _, fun c _ => rfl⟩
  rw [callTool_list_campaigns params (.response r), hl]

/-- Witness for C5 at a 200 response whose body carries two campaigns. -/
theorem c5_witness :
    callTool "list_campaigns" (.obj [])
        (.response ⟨200,
          some (.obj [("campaigns", .arr
            [.obj [("id", .str "a"), ("settings", .obj [("title", .str "A")]),
                   ("status", .str "sent"), ("emails_sent", .num 3)],
             .obj [("id", .str "b"), ("settings", .obj [("subject_line", .str "B")]),
                   ("status", .str "save"), ("emails_sent", .num 0)]])]), "ok"⟩)
      = .result (.arr
          ([.obj [("id", .str "a"), ("settings", .obj [("title", .str "A")]),
                  ("status", .str "sent"), ("emails_sent", .num 3)],
            .obj [("id", .str "b"), ("settings", .obj [("subject_line", .str "B")]),
                  ("status", .str "save"), ("emails_sent", .num 0)]].map campaignRecord)) := by
  exact (c5_list_campaigns_roundtrip (.obj [])
    (.obj [("campaigns", .arr
      [.obj [("id", .str "a"), ("settings", .obj [("title", .str "A")]),
             ("status", .str "sent"), ("emails_sent", .num 3)],
       .obj [("id", .str "b"), ("settings", .obj [("subject_line", .str "B")]),
             ("status", .str "save"), ("emails_sent", .num 0)]])])
    ⟨200, some (.obj [("campaigns", .arr
      [.obj [("id", .str "a"), ("settings", .obj [("title", .str "A")]),
             ("status", .str "sent"), ("emails_sent", .num 3)],
       .obj [("id", .str "b"), ("settings", .obj [("subject_line", .str "B")]),
             ("status", .str "save"), ("emails_sent", .num 0)]])]), "ok"⟩
    _ (by decide) rfl rfl).2.1

/-- A Python `or` with a non-empty string on the left picks that string. -/
theorem pyOr_str_truthy (s : String) (hs : s ≠ "") (b : Json) :
    pyOr (.str s) b = .str s := by
  have hne : s.isEmpty = false := by
    cases h : s.isEmpty
    · rfl
    · exact absurd ((String.isEmpty_iff s).mp h) hs
  simp [pyOr, Json.truthy, hne]

/-- A Python `or` with a falsy left operand picks the right operand. -/
theorem pyOr_falsy (a b : Json) (ha : a.truthy = false) : pyOr a b = b := by
  simp [pyOr, ha]

/-- Claim C10: in every record list_campaigns returns, the name field equals
the campaign's settings title when that is a present non-empty string,
otherwise the settings subject_line value (null when that too is absent);
in every record list_automations returns, the name equals the settings title
when that is a present non-empty string, otherwise the automation's
create_time value. -/
theorem c10_name_fallback (camp auto settings asettings : Json)
    (hs : camp.get? "settings" = some settings)
    (has : auto.get? "settings" = some asettings) :
    (∀ s : String, settings.get? "title" = some (.str s) → s ≠ "" →
       (campaignRecord camp).get? "name" = some (.str s))
    ∧ ((settings.get? "title" = none ∨ settings.get? "title" = some .null
          ∨ settings.get? "title" = some (.str "")) →
       (campaignRecord camp).get? "name" = some (settings.getD "subject_line" .null))
    ∧ (∀ s : String, asettings.get? "title" = some (.str s) → s ≠ "" →
       (automationRecord auto).get? "name" = some (.str s))
    ∧ ((asettings.get? "title" = none ∨ asettings.get? "title" = some .null
          ∨ asettings.get? "title" = some (.str "")) →
       (automationRecord auto).get? "name" = some (auto.getD "create_time" .null)) := by
  have hcamp : (campaignRecord camp).get? "name"
      = some (pyOr (settings.getD "title" .null) (settings.getD "subject_line" .null)) := by
    show some (pyOr ((camp.getD "settings" (.obj [])).getD "title" .null)
      ((camp.getD "settings" (.obj [])).getD "subject_line" .null)) = _
    simp only [Json.getD, hs, Option.getD_some]
  have hauto : (automationRecord auto).get? "name"
      = some (pyOr (asettings.getD "title" .null) (auto.getD "create_time" .null)) := by
    show some (pyOr ((auto.getD "settings" (.obj [])).getD "title" .null)
      (auto.getD "create_time" .null)) = _
    simp only [Json.getD, has, Option.getD_some]
  refine ⟨?_, ?_, ?_, ?_⟩
  · intro s htitle hne
    rw [hcamp]
    simp only [Json.getD, htitle, Option.getD_some, pyOr_str_truthy s hne]
  · intro hfalsy
    rw [hcamp]
    rcases hfalsy with h | h | h <;>
      simp only [Json.getD, h, Option.getD_some, Option.getD_none] <;>
      rw [pyOr_falsy _ _ (by rfl)]
  · intro s htitle hne
    rw [hauto]
    simp only [Json.getD, htitle, Option.getD_some, pyOr_str_truthy s hne]
  · intro hfalsy
    rw [hauto]
    rcases hfalsy with h | h | h <;>
      simp only [Json.getD, h, Option.getD_some, Option.getD_none] <;>
      rw [pyOr_falsy _ _ (by rfl)]

/-- Witness for C10: a campaign with a non-empty title keeps it as name, and
an automation without a title falls back to its create_time. -/
theorem c10_witness :
    (campaignRecord (.obj [("settings", .obj [("title", .str "T")])])).get? "name"
        = some (.str "T")
    ∧ (automationRecord (.obj [("settings", .obj []),
        ("create_time", .str "2020-01-01T00:00:00Z")])).get? "name"
        = some (.str "2020-01-01T00:00:00Z") := by
  refine ⟨(c10_name_fallback (.obj [("settings", .obj [("title", .str "T")])])
      (.obj [("settings", .obj []), ("create_time", .str "2020-01-01T00:00:00Z")])
      (.obj [("title", .str "T")]) (.obj []) rfl rfl).1 "T" rfl (by decide), ?_⟩
  exact (c10_name_fallback (.obj [("settings", .obj [("title", .str "T")])])
      (.obj [("settings", .obj []), ("create_time", .str "2020-01-01T00:00:00Z")])
      (.obj [("title", .str "T")]) (.obj []) rfl rfl).2.2.2 (Or.inl rfl)

/-- A split result is never the empty list of pieces. -/
theorem splitOnChar_ne_nil (c : Char) (l : List Char) : splitOnChar c l ≠ [] := by
  cases l with
  | nil => simp [splitOnChar]
  | cons x xs =>
      simp only [splitOnChar]
      by_cases hx : x = c
      · simp [hx]
      · simp only [if_neg hx]
        cases h : splitOnChar c xs <;> simp

/-- Splitting at a character that does not occur yields the whole string as
the single piece. -/
theorem splitOnChar_no_sep (c : Char) (l : List Char) (h : c ∉ l) :
    splitOnChar c l = [l] := by
  induction l with
  | nil => rfl
  | cons x xs ih =>
      have hx : ¬x = c := fun he => h (he ▸ List.mem_cons_self x xs)
      have hxs : c ∉ xs := fun hm => h (List.mem_cons_of_mem x hm)
      simp only [splitOnChar, if_neg hx, ih hxs]

/-- Splitting a string that contains the separator yields at least two
pieces. -/
theorem two_le_splitOnChar_length (c : Char) (l : List Char) (h : c ∈ l) :
    2 ≤ (splitOnChar c l).length := by
  induction l with
  | nil => cases h
  | cons x xs ih =>
      by_cases hx : x = c
      · simp only [splitOnChar, if_pos hx, List.length_cons]
        have hne := splitOnChar_ne_nil c xs
        have hpos : 0 < (splitOnChar c xs).length := List.length_pos.mpr hne
        omega
      · have hxs : c ∈ xs := by
          rcases List.mem_cons.mp h with h1 | h2
          · exact absurd h1.symm hx
          · exact h2
        cases h2 : splitOnChar c xs with
        | nil => exact absurd h2 (splitOnChar_ne_nil c xs)
        | cons y ys =>
            have hlen := ih hxs
            rw [h2] at hlen
            simp only [splitOnChar, if_neg hx, h2, List.length_cons] at hlen ⊢
            omega

/-- The last piece of a non-empty tail is unaffected by one more piece in
front. -/
theorem pyLast_cons_of_ne_nil (d a : List Char) (l : List (List Char)) (hl : l ≠ []) :
    pyLast d (a :: l) = pyLast d l := by
  cases l with
  | nil => exact absurd rfl hl
  | cons b m => rfl

/-- The last piece of splitting a ++ sep :: b at sep, with b free of the
separator, is exactly b: the suffix after the last separator. -/
theorem pyLast_splitOnChar (c : Char) (b : List Char) (hb : c ∉ b) :
    ∀ a d : List Char, pyLast d (splitOnChar c (a ++ c :: b)) = b := by
  intro a
  induction a with
  | nil =>
      intro d
      have h1 : splitOnChar c (([] : List Char) ++ c :: b) = [] :: splitOnChar c b := by
        simp [splitOnChar]
      rw [h1, splitOnChar_no_sep c b hb]
      rfl
  | cons x a ih =>
      intro d
      by_cases hx : x = c
      · subst hx
        have hsp : splitOnChar x ((x :: a) ++ x :: b) = [] :: splitOnChar x (a ++ x :: b) := by
          simp [splitOnChar]
        rw [hsp, pyLast_cons_of_ne_nil d [] _ (splitOnChar_ne_nil _ _), ih d]
      · have hmem : c ∈ a ++ c :: b := List.mem_append_right a (List.mem_cons_self c b)
        obtain ⟨y, ys, heq⟩ : ∃ y ys, splitOnChar c (a ++ c :: b) = y :: ys := by
          cases h2 : splitOnChar c (a ++ c :: b) with
          | nil => exact absurd h2 (splitOnChar_ne_nil c _)
          | cons y ys => exact ⟨y, ys, rfl⟩
        have hys : ys ≠ [] := by
          have hlen := two_le_splitOnChar_length c (a ++ c :: b) hmem
          rw [heq] at hlen
          simp only [List.length_cons] at hlen
          intro hn
          subst hn
          simp at hlen
        have hsp : splitOnChar c ((x :: a) ++ c :: b) = (x :: y) :: ys := by
          simp only [List.cons_append, splitOnChar, if_neg hx, List.append_eq, heq]
        rw [hsp, pyLast_cons_of_ne_nil d (x :: y) ys hys]
        have hih := ih d
        rw [heq, pyLast_cons_of_ne_nil d y ys hys] at hih
        exact hih

/-- Claim C8, counterexample: with the environment region set to the
placeholder value "<YOUR_DC>" and the key "abc-us21", the region used is the
derived "us21", not the supplied value unchanged: the source treats the
placeholder exactly like an absent variable. -/
theorem c8_counterexample :
    derive_dc (some ("abc-us21".toList)) (some ("<YOUR_DC>".toList)) = "us21".toList
    ∧ "us21".toList ≠ "<YOUR_DC>".toList := by
  constructor <;> decide

/-- Claim C8 as amended: when the region variable is absent or equals the
placeholder "<YOUR_DC>", the region is derived from the key as the substring
after its last dash; a supplied region other than the placeholder is used
unchanged. -/
theorem c8_amended :
    (∀ (envDC : Option (List Char)) (a b : List Char),
      (envDC = none ∨ envDC = some ("<YOUR_DC>".toList)) → ('-' : Char) ∉ b →
      derive_dc (some (a ++ '-' :: b)) envDC = b)
    ∧ (∀ (envKey : Option (List Char)) (dc : List Char),
        dc ≠ "<YOUR_DC>".toList → derive_dc envKey (some dc) = dc) := by
  constructor
  · intro envDC a b hDC hb
    have hdc : envDC.getD ("<YOUR_DC>".toList) = "<YOUR_DC>".toList := by
      rcases hDC with rfl | rfl <;> rfl
    have hkey : (a ++ '-' :: b) ≠ [] := by simp
    have hmem : ('-' : Char) ∈ a ++ '-' :: b :=
      List.mem_append_right a (List.mem_cons_self _ _)
    simp only [derive_dc, Option.getD_some, hdc]
    rw [if_pos ⟨trivial, hkey, hmem⟩]
    exact pyLast_splitOnChar '-' b hb a []
  · intro envKey dc hdc
    simp only [derive_dc, Option.getD_some]
    rw [if_neg (fun h => hdc h.1)]

/-- Witness for C8 as amended: an absent region with key "abc-us21" derives
"us21", and a supplied region "eu1" is used unchanged. -/
theorem c8_amended_witness :
    derive_dc (some ("abc".toList ++ '-' :: "us21".toList)) none = "us21".toList
    ∧ derive_dc (some ("abc-us21".toList)) (some ("eu1".toList)) = "eu1".toList := by
  exact ⟨c8_amended.1 none ("abc".toList) ("us21".toList) (Or.inl rfl) (by decide),
    c8_amended.2 (some ("abc-us21".toList)) ("eu1".toList) (by decide)⟩

end MailchimpMCP
